import Mathlib

/-
  A shallow embedding of the halo2 range-check gadget in
  `src/range_check/example4.rs`, together with theorems about its
  configuration, its gate and lookup semantics, and its assignment protocol.

  Machine integers of the source (usize indices) are modelled as `Nat`;
  field elements are a generic commutative ring / field `F`; halo2's
  `Value<Assigned<F>>` is modelled as `Option F` (`none` = unknown).
  The gate-builder's `assert!(range > 0)` (a configuration-time panic) is
  modelled by an `Option` result of `configure`.  The backend's
  region-placement collaborators (selector enabling, advice writing, table
  loading), which are out of scope per the design, are modelled by a
  `Backend` record of success flags; a failing collaborator call surfaces
  as `Except.error Error.Synthesis`, mirroring `halo2::plonk::Error`.
-/

namespace Halo2

/-- halo2 expressions as built inside a gate or lookup closure: constants,
selector queries and advice queries at the current rotation, closed under
negation, sums and products.  The source's `a - b` elaborates through the
`Sub` impl to `Sum (a, Negated (b))`. -/
inductive Expression (F : Type) where
  | Constant : F → Expression F
  | Selector : Nat → Expression F
  | Advice : Nat → Expression F
  | Negated : Expression F → Expression F
  | Sum : Expression F → Expression F → Expression F
  | Product : Expression F → Expression F → Expression F
deriving DecidableEq

/-- Evaluation of an expression at one row, given the selector assignment and
the advice assignment of that row. -/
def Expression.eval {F : Type} [CommRing F] (sel adv : Nat → F) : Expression F → F
  | Constant c => c
  | Selector s => sel s
  | Advice a => adv a
  | Negated e => - Expression.eval sel adv e
  | Sum a b => Expression.eval sel adv a + Expression.eval sel adv b
  | Product a b => Expression.eval sel adv a * Expression.eval sel adv b

/-- Subtraction of expressions, as produced by the source's
`Expression::Constant(F::from(i as u64)) - value`. -/
def Expression.sub {F : Type} (a b : Expression F) : Expression F :=
  Expression.Sum a (Expression.Negated b)

/-- A selector handle: its index in the constraint system and whether it was
allocated as a simple selector (`meta.selector()`, usable only in gates) or a
complex one (`meta.complex_selector()`, also usable in lookups). -/
structure Selector where
  index : Nat
  simple : Bool
deriving DecidableEq

/-- An advice (private witness) column handle. -/
structure AdviceColumn where
  index : Nat
deriving DecidableEq

/-- An instance (public input) column handle. -/
structure InstanceColumn where
  index : Nat
deriving DecidableEq

/-- A lookup-table column handle. -/
structure TableColumn where
  index : Nat
deriving DecidableEq

/-- A registered custom gate: its name and its named constraint polynomials. -/
structure Gate (F : Type) where
  name : String
  polys : List (String × Expression F)
deriving DecidableEq

/-- A registered lookup argument: a list of (input expression, table column)
pairs. -/
structure Lookup (F : Type) where
  pairs : List (Expression F × TableColumn)
deriving DecidableEq

/-- The write-once-at-configure-time constraint system: allocation counters for
selectors and columns, the instance columns with equality enabled, and the
registered gates and lookup arguments. -/
structure ConstraintSystem (F : Type) where
  num_selectors : Nat
  num_advice : Nat
  num_instance : Nat
  num_table : Nat
  equality : List Nat
  gates : List (Gate F)
  lookups : List (Lookup F)
deriving DecidableEq

/-- The fresh constraint system handed to `Circuit::configure`. -/
def ConstraintSystem.init (F : Type) : ConstraintSystem F :=
  ⟨0, 0, 0, 0, [], [], []⟩

/-- meta.selector(): allocate a fresh simple selector. -/
def ConstraintSystem.selector {F : Type} (cs : ConstraintSystem F) :
    Selector × ConstraintSystem F :=
  (⟨cs.num_selectors, true⟩, { cs with num_selectors := cs.num_selectors + 1 })

/-- meta.complex_selector(): allocate a fresh complex selector. -/
def ConstraintSystem.complex_selector {F : Type} (cs : ConstraintSystem F) :
    Selector × ConstraintSystem F :=
  (⟨cs.num_selectors, false⟩, { cs with num_selectors := cs.num_selectors + 1 })

/-- meta.advice_column(): allocate a fresh advice column. -/
def ConstraintSystem.advice_column {F : Type} (cs : ConstraintSystem F) :
    AdviceColumn × ConstraintSystem F :=
  (⟨cs.num_advice⟩, { cs with num_advice := cs.num_advice + 1 })

/-- meta.instance_column(): allocate a fresh instance column. -/
def ConstraintSystem.instance_column {F : Type} (cs : ConstraintSystem F) :
    InstanceColumn × ConstraintSystem F :=
  (⟨cs.num_instance⟩, { cs with num_instance := cs.num_instance + 1 })

/-- meta.lookup_table_column(): allocate a fresh lookup-table column. -/
def ConstraintSystem.lookup_table_column {F : Type} (cs : ConstraintSystem F) :
    TableColumn × ConstraintSystem F :=
  (⟨cs.num_table⟩, { cs with num_table := cs.num_table + 1 })

/-- meta.enable_equality(column): enable equality-checking on an instance
column. -/
def ConstraintSystem.enable_equality {F : Type} (cs : ConstraintSystem F)
    (col : InstanceColumn) : ConstraintSystem F :=
  { cs with equality := cs.equality ++ [col.index] }

/-- meta.create_gate(name, ...): register one custom gate; the closure's
queries have already been resolved into the gate's polynomials. -/
def ConstraintSystem.create_gate {F : Type} (cs : ConstraintSystem F)
    (g : Gate F) : ConstraintSystem F :=
  { cs with gates := cs.gates ++ [g] }

/-- meta.lookup(...): register one lookup argument. -/
def ConstraintSystem.lookup {F : Type} (cs : ConstraintSystem F)
    (l : Lookup F) : ConstraintSystem F :=
  { cs with lookups := cs.lookups ++ [l] }

/-- Constraints::with_selector(q, cs): every constraint polynomial is
multiplied by the selector expression `q`. -/
def with_selector {F : Type} (q : Expression F)
    (cs : List (String × Expression F)) : List (String × Expression F) :=
  cs.map fun c => (c.1, Expression.Product q c.2)

/-- Modelled from the spec: the table module (`mod table;`, file
`table.rs`) is not present under `src/`.  Per the spec, the table provider
owns one value column of the ordered set 0..LOOKUP_RANGE-1 and exposes its
handle for lookup registration. -/
structure RangeTableConfig (F : Type) (LOOKUP_RANGE : Nat) where
  value : TableColumn
deriving DecidableEq

/-- Modelled from the spec: `RangeTableConfig::configure` allocates the
table's value column in the constraint system and returns the handle. -/
def RangeTableConfig.configure (F : Type) (LOOKUP_RANGE : Nat)
    (cs : ConstraintSystem F) : RangeTableConfig F LOOKUP_RANGE × ConstraintSystem F :=
  let p := cs.lookup_table_column
  (⟨p.1⟩, p.2)

/-- The expression folded by the gate closure's `range_check` helper after its
assertion has passed: given range R and value v it builds
v · (1 − v) · (2 − v) · … · (R − 1 − v) by the source's
`(1..range).fold(value, |expr, i| expr * (Constant(i) - value))`. -/
def range_check_fold {F : Type} [CommRing F] (range : Nat)
    (value : Expression F) : Expression F :=
  (List.range' 1 (range - 1)).foldl
    (fun expr (i : Nat) =>
      Expression.Product expr (Expression.sub (Expression.Constant (i : F)) value))
    value

/-- The gate closure's `range_check` helper: `assert!(range > 0)` is a
configuration-time panic, modelled by `none`. -/
def range_check {F : Type} [CommRing F] (range : Nat)
    (value : Expression F) : Option (Expression F) :=
  if 0 < range then some (range_check_fold range value) else none

/-- The gadget configuration: the two selectors, the witness column, the table
handle and the instance column. -/
structure RangeCheckConfig (F : Type) (RANGE LOOKUP_RANGE : Nat) where
  q_range_check : Selector
  q_lookup : Selector
  value : AdviceColumn
  table : RangeTableConfig F LOOKUP_RANGE
  instance_col : InstanceColumn
deriving DecidableEq

/-- RangeCheckConfig::configure: allocates the selectors, the table handle and
the instance column, enables equality on the instance column, registers the
range-check gate (its polynomial multiplied by `q_range_check` through
`Constraints::with_selector`) and the lookup argument
(`q_lookup · value`, `table.value`).  A failing gate-closure assertion
(RANGE = 0) yields `none`. -/
def RangeCheckConfig.configure {F : Type} [CommRing F] (RANGE LOOKUP_RANGE : Nat)
    (cs : ConstraintSystem F) (value : AdviceColumn) :
    Option (RangeCheckConfig F RANGE LOOKUP_RANGE × ConstraintSystem F) :=
  let p1 := cs.selector
  let q_range_check := p1.1
  let p2 := p1.2.complex_selector
  let q_lookup := p2.1
  let p3 := RangeTableConfig.configure F LOOKUP_RANGE p2.2
  let table := p3.1
  let p4 := p3.2.instance_column
  let instance_col := p4.1
  let cs4 := p4.2.enable_equality instance_col
  let q := Expression.Selector q_range_check.index
  let v : Expression F := Expression.Advice value.index
  (range_check RANGE v).map fun poly =>
    let cs5 := cs4.create_gate ⟨"range check", with_selector q [("range check", poly)]⟩
    let q_l := Expression.Selector q_lookup.index
    let v2 : Expression F := Expression.Advice value.index
    let cs6 := cs5.lookup ⟨[(Expression.Product q_l v2, table.value)]⟩
    (⟨q_range_check, q_lookup, value, table, instance_col⟩, cs6)

/-- halo2's `Value`: a witness slot that is known (proving) or unknown (key
generation). -/
abbrev Value (F : Type) := Option F

/-- Value::known. -/
def Value.known {F : Type} (v : F) : Value F := some v

/-- Value::unknown, also the `Default` of `Value`. -/
def Value.unknown {F : Type} : Value F := none

/-- halo2's `plonk::Error` as surfaced by the placement collaborators. -/
inductive Error where
  | Synthesis
deriving DecidableEq

/-- The out-of-scope placement backend: records whether each collaborator call
(selector enabling, advice-cell writing, table loading) succeeds. -/
structure Backend where
  enable_ok : Bool
  assign_ok : Bool
  load_ok : Bool
deriving DecidableEq

/-- A region under construction: its label, the (selector index, offset) pairs
enabled in it, and the (column index, offset, value) advice writes made in
it. -/
structure Region (F : Type) where
  name : String
  enabled : List (Nat × Nat)
  advice_writes : List (Nat × Nat × Value F)
deriving DecidableEq

/-- An assigned cell: the advice column and offset it was written at, and the
value written. -/
structure AssignedCell (F : Type) where
  column : Nat
  offset : Nat
  value : Value F
deriving DecidableEq

/-- A range-constrained value: an assigned cell tagged at the type level with
the bound RANGE it has been wired to satisfy. -/
structure RangeConstrained (F : Type) (RANGE : Nat) where
  cell : AssignedCell F
deriving DecidableEq

/-- Selector::enable: record the selector at the given offset of the region,
or fail with a backend placement error. -/
def Selector.enable {F : Type} (s : Selector) (b : Backend) (r : Region F)
    (offset : Nat) : Except Error (Region F) :=
  if b.enable_ok then Except.ok { r with enabled := r.enabled ++ [(s.index, offset)] }
  else Except.error Error.Synthesis

/-- Region::assign_advice: write a value into (column, offset) and return the
assigned cell, or fail with a backend placement error. -/
def Region.assign_advice {F : Type} (r : Region F) (b : Backend)
    (col : AdviceColumn) (offset : Nat) (v : Value F) :
    Except Error (AssignedCell F × Region F) :=
  if b.assign_ok then
    Except.ok (⟨col.index, offset, v⟩,
      { r with advice_writes := r.advice_writes ++ [(col.index, offset, v)] })
  else Except.error Error.Synthesis

/-- The layouter's accumulated synthesis state: the committed regions, in
order, and the table's loaded value column when `load` has run. -/
structure LayouterState (F : Type) where
  regions : List (Region F)
  table_rows : Option (List F)
deriving DecidableEq

/-- The layouter state at the start of synthesis. -/
def LayouterState.init (F : Type) : LayouterState F := ⟨[], none⟩

/-- layouter.assign_region(name, closure): open a fresh region, run the
closure in it, and commit the finished region to the state. -/
def LayouterState.assign_region {F α : Type} (st : LayouterState F)
    (name : String) (f : Region F → Except Error (α × Region F)) :
    Except Error (α × LayouterState F) :=
  match f ⟨name, [], []⟩ with
  | Except.error e => Except.error e
  | Except.ok (a, r) => Except.ok (a, { st with regions := st.regions ++ [r] })

/-- RangeCheckConfig::assign_simple: a fresh region in which `q_range_check`
is enabled at offset 0 and the value is written into the value column at
offset 0; the assigned cell is wrapped as `RangeConstrained` under RANGE. -/
def RangeCheckConfig.assign_simple {F : Type} {RANGE LOOKUP_RANGE : Nat}
    (cfg : RangeCheckConfig F RANGE LOOKUP_RANGE) (b : Backend)
    (st : LayouterState F) (value : Value F) :
    Except Error (RangeConstrained F RANGE × LayouterState F) :=
  st.assign_region "Assign value for simple range check" fun region =>
    match cfg.q_range_check.enable b region 0 with
    | Except.error e => Except.error e
    | Except.ok region1 =>
      match region1.assign_advice b cfg.value 0 value with
      | Except.error e => Except.error e
      | Except.ok (cell, region2) => Except.ok (⟨cell⟩, region2)

/-- RangeCheckConfig::assign_lookup: identical to `assign_simple` but enabling
`q_lookup`, with the result tagged under LOOKUP_RANGE. -/
def RangeCheckConfig.assign_lookup {F : Type} {RANGE LOOKUP_RANGE : Nat}
    (cfg : RangeCheckConfig F RANGE LOOKUP_RANGE) (b : Backend)
    (st : LayouterState F) (value : Value F) :
    Except Error (RangeConstrained F LOOKUP_RANGE × LayouterState F) :=
  st.assign_region "Assign value for lookup range check" fun region =>
    match cfg.q_lookup.enable b region 0 with
    | Except.error e => Except.error e
    | Except.ok region1 =>
      match region1.assign_advice b cfg.value 0 value with
      | Except.error e => Except.error e
      | Except.ok (cell, region2) => Except.ok (⟨cell⟩, region2)

/-- Modelled from the spec: `table.rs` is missing from `src/`; per the spec,
`RangeTableConfig::load` populates the table's value column with exactly the
ascending sequence 0..LOOKUP_RANGE-1, failing only with a backend allocation
error. -/
def RangeTableConfig.load {F : Type} [CommRing F] {LOOKUP_RANGE : Nat}
    (_t : RangeTableConfig F LOOKUP_RANGE) (b : Backend)
    (st : LayouterState F) : Except Error (LayouterState F) :=
  if b.load_ok then
    Except.ok { st with table_rows := some ((List.range LOOKUP_RANGE).map fun i : Nat => (i : F)) }
  else Except.error Error.Synthesis

/-- The circuit driver: the two witness slots. -/
structure MyCircuit (F : Type) (RANGE LOOKUP_RANGE : Nat) where
  value : Value F
  lookup_value : Value F
deriving DecidableEq

/-- derive(Default) on MyCircuit: both witness slots are
`Value::default() = Value::unknown()`. -/
def MyCircuit.default (F : Type) (RANGE LOOKUP_RANGE : Nat) :
    MyCircuit F RANGE LOOKUP_RANGE :=
  ⟨Value.unknown, Value.unknown⟩

/-- Circuit::without_witnesses: `Self::default()`. -/
def MyCircuit.without_witnesses {F : Type} {RANGE LOOKUP_RANGE : Nat}
    (_c : MyCircuit F RANGE LOOKUP_RANGE) : MyCircuit F RANGE LOOKUP_RANGE :=
  MyCircuit.default F RANGE LOOKUP_RANGE

/-- Circuit::configure: allocates the single advice column and delegates to
RangeCheckConfig::configure. -/
def MyCircuit.configure (F : Type) [CommRing F] (RANGE LOOKUP_RANGE : Nat)
    (cs : ConstraintSystem F) :
    Option (RangeCheckConfig F RANGE LOOKUP_RANGE × ConstraintSystem F) :=
  let p := cs.advice_column
  RangeCheckConfig.configure RANGE LOOKUP_RANGE p.2 p.1

/-- Circuit::synthesize: loads the table, then assigns the first witness slot
through `assign_simple`; the `assign_lookup` call is commented out in the
source. -/
def MyCircuit.synthesize {F : Type} [CommRing F] {RANGE LOOKUP_RANGE : Nat}
    (c : MyCircuit F RANGE LOOKUP_RANGE)
    (config : RangeCheckConfig F RANGE LOOKUP_RANGE) (b : Backend)
    (st : LayouterState F) : Except Error (LayouterState F) :=
  match config.table.load b st with
  | Except.error e => Except.error e
  | Except.ok st1 =>
    match config.assign_simple b st1 c.value with
    | Except.error e => Except.error e
    | Except.ok (_, st2) => Except.ok st2

/-- The configuration run the driver performs: `Circuit::configure` on a fresh
constraint system. -/
def circuit_config (F : Type) [CommRing F] (RANGE LOOKUP_RANGE : Nat) :
    Option (RangeCheckConfig F RANGE LOOKUP_RANGE × ConstraintSystem F) :=
  MyCircuit.configure F RANGE LOOKUP_RANGE (ConstraintSystem.init F)

/-- The gates registered by a configuration run (empty when configuration
panicked). -/
def gates_of {F : Type} {RANGE LOOKUP_RANGE : Nat}
    (o : Option (RangeCheckConfig F RANGE LOOKUP_RANGE × ConstraintSystem F)) :
    List (Gate F) :=
  o.elim [] fun r => r.2.gates

/-- The lookup arguments registered by a configuration run. -/
def lookups_of {F : Type} {RANGE LOOKUP_RANGE : Nat}
    (o : Option (RangeCheckConfig F RANGE LOOKUP_RANGE × ConstraintSystem F)) :
    List (Lookup F) :=
  o.elim [] fun r => r.2.lookups

/-- The index of the `q_range_check` selector of a configuration run. -/
def qrc_index {F : Type} {RANGE LOOKUP_RANGE : Nat}
    (o : Option (RangeCheckConfig F RANGE LOOKUP_RANGE × ConstraintSystem F)) : Nat :=
  o.elim 0 fun r => r.1.q_range_check.index

/-- The index of the `q_lookup` selector of a configuration run. -/
def qlookup_index {F : Type} {RANGE LOOKUP_RANGE : Nat}
    (o : Option (RangeCheckConfig F RANGE LOOKUP_RANGE × ConstraintSystem F)) : Nat :=
  o.elim 0 fun r => r.1.q_lookup.index

/-- The index of the advice (value) column of a configuration run. -/
def value_index {F : Type} {RANGE LOOKUP_RANGE : Nat}
    (o : Option (RangeCheckConfig F RANGE LOOKUP_RANGE × ConstraintSystem F)) : Nat :=
  o.elim 0 fun r => r.1.value.index

/-- The index of the table's value column of a configuration run. -/
def table_value_index {F : Type} {RANGE LOOKUP_RANGE : Nat}
    (o : Option (RangeCheckConfig F RANGE LOOKUP_RANGE × ConstraintSystem F)) : Nat :=
  o.elim 0 fun r => r.1.table.value.index

/-- A gate is satisfied at a row when every one of its constraint polynomials
evaluates to zero there. -/
def gate_satisfied {F : Type} [CommRing F] (g : Gate F) (sel adv : Nat → F) : Prop :=
  ∀ c ∈ g.polys, Expression.eval sel adv c.2 = 0

/-- A lookup argument is satisfied at a row when each pair's input expression
evaluates to an entry of its table column. -/
def lookup_satisfied {F : Type} [CommRing F] (l : Lookup F) (sel adv : Nat → F)
    (tbl : Nat → List F) : Prop :=
  ∀ p ∈ l.pairs, Expression.eval sel adv p.1 ∈ tbl p.2.index

/-- All the gates of a list are satisfied at a row. -/
def gates_satisfied_at {F : Type} [CommRing F] (gs : List (Gate F))
    (sel adv : Nat → F) : Prop :=
  ∀ g ∈ gs, gate_satisfied g sel adv

/-- All the lookup arguments of a list are satisfied at a row. -/
def lookups_satisfied_at {F : Type} [CommRing F] (ls : List (Lookup F))
    (sel adv : Nat → F) (tbl : Nat → List F) : Prop :=
  ∀ l ∈ ls, lookup_satisfied l sel adv tbl

/-- A concrete configuration, as produced by a configuration run on a fresh
constraint system; used to evaluate the theorems at concrete inputs. -/
def sample_config (F : Type) (RANGE LOOKUP_RANGE : Nat) :
    RangeCheckConfig F RANGE LOOKUP_RANGE :=
  ⟨⟨0, true⟩, ⟨1, false⟩, ⟨0⟩, ⟨⟨0⟩⟩, ⟨0⟩⟩

/-- A backend whose collaborator calls all succeed. -/
def sample_backend : Backend := ⟨true, true, true⟩

/-- When RANGE is positive, `RangeCheckConfig::configure` allocates the two
selectors, the table column and the instance column in order, enables equality
on the instance column, and registers the gate and the lookup argument. -/
theorem configure_spec {F : Type} [CommRing F] (R L : Nat) (hR : 0 < R)
    (cs : ConstraintSystem F) (value : AdviceColumn) :
    RangeCheckConfig.configure R L cs value =
      some (⟨⟨cs.num_selectors, true⟩, ⟨cs.num_selectors + 1, false⟩, value,
              ⟨⟨cs.num_table⟩⟩, ⟨cs.num_instance⟩⟩,
            ⟨cs.num_selectors + 2, cs.num_advice, cs.num_instance + 1, cs.num_table + 1,
             cs.equality ++ [cs.num_instance],
             cs.gates ++ [⟨"range check", [("range check",
               Expression.Product (Expression.Selector cs.num_selectors)
                 (range_check_fold R (Expression.Advice value.index)))]⟩],
             cs.lookups ++ [⟨[(Expression.Product (Expression.Selector (cs.num_selectors + 1))
                 (Expression.Advice value.index), ⟨cs.num_table⟩)]⟩]⟩) := by
  simp [RangeCheckConfig.configure, ConstraintSystem.selector,
    ConstraintSystem.complex_selector, RangeTableConfig.configure,
    ConstraintSystem.lookup_table_column, ConstraintSystem.instance_column,
    ConstraintSystem.enable_equality, ConstraintSystem.create_gate,
    ConstraintSystem.lookup, range_check, hR, with_selector]

/-- The driver's configuration run on a fresh constraint system, in normal
form, for positive RANGE. -/
theorem circuit_config_eq {F : Type} [CommRing F] (R L : Nat) (hR : 0 < R) :
    circuit_config F R L =
      some (⟨⟨0, true⟩, ⟨1, false⟩, ⟨0⟩, ⟨⟨0⟩⟩, ⟨0⟩⟩,
            ⟨2, 1, 1, 1, [0],
             [⟨"range check", [("range check",
               Expression.Product (Expression.Selector 0)
                 (range_check_fold R (Expression.Advice 0)))]⟩],
             [⟨[(Expression.Product (Expression.Selector 1)
                 (Expression.Advice 0), ⟨0⟩)]⟩]⟩) := by
  unfold circuit_config MyCircuit.configure
  rw [show (ConstraintSystem.init F).advice_column =
    (⟨0⟩, ⟨0, 1, 0, 0, [], [], []⟩) from rfl]
  rw [configure_spec R L hR]
  rfl

/-- Evaluating the fold that builds the range-check product. -/
theorem eval_fold_sub {F : Type} [CommRing F] (sel adv : Nat → F)
    (v : Expression F) :
    ∀ (l : List Nat) (e : Expression F),
      Expression.eval sel adv
        (l.foldl (fun expr (i : Nat) =>
          Expression.Product expr (Expression.sub (Expression.Constant (i : F)) v)) e)
      = Expression.eval sel adv e *
          (l.map fun i : Nat => (i : F) - Expression.eval sel adv v).prod := by
  intro l
  induction l with
  | nil => intro e; simp
  | cons i t ih =>
    intro e
    simp only [List.foldl_cons, List.map_cons, List.prod_cons, ih]
    simp only [Expression.eval, Expression.sub]
    ring

/-- The range-check expression evaluates to
v · (1 − v) · … · (R − 1 − v) at a row. -/
theorem eval_range_check_fold {F : Type} [CommRing F] (sel adv : Nat → F)
    (R : Nat) (v : Expression F) :
    Expression.eval sel adv (range_check_fold R v)
      = Expression.eval sel adv v *
          ((List.range' 1 (R - 1)).map fun i : Nat => (i : F) - Expression.eval sel adv v).prod := by
  unfold range_check_fold
  exact eval_fold_sub sel adv v (List.range' 1 (R - 1)) v

/-- The root set of v · (1 − v) · … · (R − 1 − v) over a field is exactly the
casts of 0, …, R − 1. -/
theorem prod_sub_eq_zero_iff {F : Type} [Field F] (R : Nat) (hR : 0 < R) (v : F) :
    v * ((List.range' 1 (R - 1)).map fun i : Nat => (i : F) - v).prod = 0 ↔
      ∃ i, i < R ∧ v = (i : F) := by
  constructor
  · intro h
    rcases mul_eq_zero.mp h with h0 | hp
    · exact ⟨0, hR, by simpa using h0⟩
    · rw [List.prod_eq_zero_iff] at hp
      rcases List.mem_map.mp hp with ⟨i, hi, hfi⟩
      rw [List.mem_range'_1] at hi
      exact ⟨i, by omega, (sub_eq_zero.mp hfi).symm⟩
  · rintro ⟨i, hiR, rfl⟩
    match i with
    | 0 => simp
    | j + 1 =>
      refine mul_eq_zero_of_right _ (List.prod_eq_zero ?_)
      refine List.mem_map.mpr ⟨j + 1, ?_, by simp⟩
      rw [List.mem_range'_1]
      omega

/-- C1: for RANGE > 0 the range-check gate registered by the configuration
run, evaluated at a row where `q_range_check = 1` (as `assign_simple`
enables it), is satisfied if and only if the advice value at that row is one
of 0, 1, …, RANGE − 1; in particular it is satisfied for in-range values and
unsatisfied for out-of-range values. -/
theorem C1_range_gate_root_set {F : Type} [Field F] (R L : Nat) (hR : 0 < R)
    (sel adv : Nat → F) (hq : sel (qrc_index (circuit_config F R L)) = 1) :
    gates_satisfied_at (gates_of (circuit_config F R L)) sel adv ↔
      ∃ i, i < R ∧ adv (value_index (circuit_config F R L)) = (i : F) := by
  rw [circuit_config_eq R L hR] at hq ⊢
  simp only [gates_of, qrc_index, value_index, Option.elim] at hq ⊢
  simp only [gates_satisfied_at, gate_satisfied, List.mem_singleton, forall_eq]
  rw [show Expression.eval sel adv (Expression.Product (Expression.Selector 0)
      (range_check_fold R (Expression.Advice 0)))
    = sel 0 * Expression.eval sel adv (range_check_fold R (Expression.Advice 0)) from rfl]
  rw [hq, one_mul, eval_range_check_fold]
  exact prod_sub_eq_zero_iff R hR (adv 0)

/-- C1, evaluated: RANGE = 16, LOOKUP_RANGE = 8 over ℚ, at a selected row
carrying the advice value 7. -/
theorem C1_range_gate_root_set_witness :
    gates_satisfied_at (gates_of (circuit_config ℚ 16 8)) (fun _ => 1) (fun _ => 7) ↔
      ∃ i : Nat, i < 16 ∧ (7 : ℚ) = (i : ℚ) :=
  C1_range_gate_root_set 16 8 (by decide) (fun _ => 1) (fun _ => 7) rfl

/-- C9: at any row where `q_range_check = 0` the registered range-check gate
is satisfied regardless of the advice value, because
`Constraints::with_selector` multiplied the range-check polynomial by the
queried selector. -/
theorem C9_gate_unselected_row {F : Type} [CommRing F] (R L : Nat) (hR : 0 < R)
    (sel adv : Nat → F) (hq : sel (qrc_index (circuit_config F R L)) = 0) :
    gates_satisfied_at (gates_of (circuit_config F R L)) sel adv := by
  rw [circuit_config_eq R L hR] at hq ⊢
  simp only [gates_of, qrc_index, Option.elim] at hq ⊢
  simp only [gates_satisfied_at, gate_satisfied, List.mem_singleton, forall_eq]
  rw [show Expression.eval sel adv (Expression.Product (Expression.Selector 0)
      (range_check_fold R (Expression.Advice 0)))
    = sel 0 * Expression.eval sel adv (range_check_fold R (Expression.Advice 0)) from rfl]
  rw [hq, zero_mul]

/-- C9, evaluated: RANGE = 16 over ℚ at an unselected row with advice value
5 (out of no consequence). -/
theorem C9_gate_unselected_row_witness :
    gates_satisfied_at (gates_of (circuit_config ℚ 16 8)) (fun _ => 0) (fun _ => 5) :=
  C9_gate_unselected_row 16 8 (by decide) (fun _ => 0) (fun _ => 5) rfl

/-- C10: at any row where `q_lookup = 0` the lookup input `q_lookup · v`
evaluates to 0 for every advice value, so the unselected row satisfies the
lookup argument exactly when 0 is an entry of the table's value column. -/
theorem C10_lookup_unselected_row {F : Type} [CommRing F] (R L : Nat)
    (hR : 0 < R) (sel adv : Nat → F) (tbl : Nat → List F)
    (hq : sel (qlookup_index (circuit_config F R L)) = 0) :
    (lookups_satisfied_at (lookups_of (circuit_config F R L)) sel adv tbl ↔
      (0 : F) ∈ tbl (table_value_index (circuit_config F R L))) := by
  rw [circuit_config_eq R L hR] at hq ⊢
  simp only [lookups_of, qlookup_index, table_value_index, Option.elim] at hq ⊢
  simp only [lookups_satisfied_at, lookup_satisfied, List.mem_singleton, forall_eq]
  rw [show Expression.eval sel adv (Expression.Product (Expression.Selector 1)
      (Expression.Advice 0)) = sel 1 * adv 0 from rfl]
  rw [hq, zero_mul]

/-- C10, evaluated: over ℚ at an unselected row, against the table whose
value column is the single entry 0. -/
theorem C10_lookup_unselected_row_witness :
    lookups_satisfied_at (lookups_of (circuit_config ℚ 16 8)) (fun _ => 0)
        (fun _ => 3) (fun _ => [0]) ↔
      (0 : ℚ) ∈ [(0 : ℚ)] :=
  C10_lookup_unselected_row 16 8 (by decide) (fun _ => 0) (fun _ => 3)
    (fun _ => [0]) rfl

/-- C3: the configuration run registers exactly one lookup argument, whose
single pair is (`q_lookup · v`, `table.value`); consequently at any row where
`q_lookup = 1` a satisfied lookup forces the advice value to equal some entry
of the table's value column. -/
theorem C3_single_lookup_pair {F : Type} [CommRing F] (R L : Nat) (hR : 0 < R)
    (sel adv : Nat → F) (tbl : Nat → List F)
    (hq : sel (qlookup_index (circuit_config F R L)) = 1)
    (hsat : lookups_satisfied_at (lookups_of (circuit_config F R L)) sel adv tbl) :
    lookups_of (circuit_config F R L) =
      [⟨[(Expression.Product
            (Expression.Selector (qlookup_index (circuit_config F R L)))
            (Expression.Advice (value_index (circuit_config F R L))),
          ⟨table_value_index (circuit_config F R L)⟩)]⟩] ∧
    adv (value_index (circuit_config F R L)) ∈
      tbl (table_value_index (circuit_config F R L)) := by
  rw [circuit_config_eq R L hR] at hq hsat ⊢
  simp only [lookups_of, qlookup_index, value_index, table_value_index,
    Option.elim] at hq hsat ⊢
  refine ⟨by trivial, ?_⟩
  simp only [lookups_satisfied_at, lookup_satisfied, List.mem_singleton,
    forall_eq] at hsat
  rw [show Expression.eval sel adv (Expression.Product (Expression.Selector 1)
      (Expression.Advice 0)) = sel 1 * adv 0 from rfl] at hsat
  rw [hq, one_mul] at hsat
  exact hsat

/-- C3, evaluated: over ℚ with the selected row carrying advice value 0 and
the table's value column holding the single entry 0. -/
theorem C3_single_lookup_pair_witness :
    lookups_of (circuit_config ℚ 16 8) =
      [⟨[(Expression.Product (Expression.Selector 1) (Expression.Advice 0),
          ⟨0⟩)]⟩] ∧
    (0 : ℚ) ∈ [(0 : ℚ)] := by
  refine C3_single_lookup_pair 16 8 (by decide) (fun _ => 1) (fun _ => 0)
    (fun _ => [0]) rfl ?_
  rw [circuit_config_eq 16 8 (by decide)]
  simp only [lookups_of, Option.elim, lookups_satisfied_at, lookup_satisfied,
    List.mem_singleton, forall_eq]
  simp [Expression.eval]

/-- C5: `RangeCheckConfig::configure` with RANGE = 0 fails fatally at
configuration time through the gate builder's assertion, before any witness
is touched; for every positive RANGE the assertion passes and configuration
returns a configuration. -/
theorem C5_configure_range_assertion {F : Type} [CommRing F] (R L : Nat)
    (cs : ConstraintSystem F) (value : AdviceColumn) :
    RangeCheckConfig.configure 0 L cs value =
      (none : Option (RangeCheckConfig F 0 L × ConstraintSystem F)) ∧
    (0 < R → (RangeCheckConfig.configure R L cs value).isSome = true) := by
  constructor
  · simp [RangeCheckConfig.configure, range_check]
  · intro hR
    rw [configure_spec R L hR cs value]
    rfl

/-- C8: the configuration allocates, in order, a simple selector for
`q_range_check`, a complex selector for `q_lookup`, the table handle via the
table provider's configure, and one instance column with equality enabled on
it, and stores all five handles in the returned config. -/
theorem C8_configure_allocations {F : Type} [CommRing F] (R L : Nat)
    (hR : 0 < R) (cs : ConstraintSystem F) (value : AdviceColumn) :
    RangeCheckConfig.configure R L cs value =
      some (⟨⟨cs.num_selectors, true⟩, ⟨cs.num_selectors + 1, false⟩, value,
              ⟨⟨cs.num_table⟩⟩, ⟨cs.num_instance⟩⟩,
            ⟨cs.num_selectors + 2, cs.num_advice, cs.num_instance + 1, cs.num_table + 1,
             cs.equality ++ [cs.num_instance],
             cs.gates ++ [⟨"range check", [("range check",
               Expression.Product (Expression.Selector cs.num_selectors)
                 (range_check_fold R (Expression.Advice value.index)))]⟩],
             cs.lookups ++ [⟨[(Expression.Product (Expression.Selector (cs.num_selectors + 1))
                 (Expression.Advice value.index), ⟨cs.num_table⟩)]⟩]⟩) :=
  configure_spec R L hR cs value

/-- C8, evaluated: RANGE = 16, LOOKUP_RANGE = 8 over ℚ from a fresh
constraint system. -/
theorem C8_configure_allocations_witness :
    RangeCheckConfig.configure 16 8 (ConstraintSystem.init ℚ) ⟨0⟩ =
      some (⟨⟨0, true⟩, ⟨1, false⟩, ⟨0⟩, ⟨⟨0⟩⟩, ⟨0⟩⟩,
            ⟨2, 0, 1, 1, [0],
             [⟨"range check", [("range check",
               Expression.Product (Expression.Selector 0)
                 (range_check_fold 16 (Expression.Advice 0)))]⟩],
             [⟨[(Expression.Product (Expression.Selector 1)
                 (Expression.Advice 0), ⟨0⟩)]⟩]⟩) :=
  C8_configure_allocations 16 8 (by decide) (ConstraintSystem.init ℚ) ⟨0⟩

/-- The full case analysis of `assign_simple` over the backend's flags. -/
theorem assign_simple_eq {F : Type} {R L : Nat} (cfg : RangeCheckConfig F R L)
    (b : Backend) (st : LayouterState F) (v : Value F) :
    cfg.assign_simple b st v =
      if b.enable_ok = true ∧ b.assign_ok = true then
        Except.ok (⟨⟨cfg.value.index, 0, v⟩⟩,
          ⟨st.regions ++ [⟨"Assign value for simple range check",
             [(cfg.q_range_check.index, 0)], [(cfg.value.index, 0, v)]⟩],
           st.table_rows⟩)
      else Except.error Error.Synthesis := by
  rcases b with ⟨eo, ao, lo⟩
  cases eo <;> cases ao <;>
    simp [RangeCheckConfig.assign_simple, LayouterState.assign_region,
      Selector.enable, Region.assign_advice]

/-- The full case analysis of `assign_lookup` over the backend's flags. -/
theorem assign_lookup_eq {F : Type} {R L : Nat} (cfg : RangeCheckConfig F R L)
    (b : Backend) (st : LayouterState F) (v : Value F) :
    cfg.assign_lookup b st v =
      if b.enable_ok = true ∧ b.assign_ok = true then
        Except.ok (⟨⟨cfg.value.index, 0, v⟩⟩,
          ⟨st.regions ++ [⟨"Assign value for lookup range check",
             [(cfg.q_lookup.index, 0)], [(cfg.value.index, 0, v)]⟩],
           st.table_rows⟩)
      else Except.error Error.Synthesis := by
  rcases b with ⟨eo, ao, lo⟩
  cases eo <;> cases ao <;>
    simp [RangeCheckConfig.assign_lookup, LayouterState.assign_region,
      Selector.enable, Region.assign_advice]

/-- The full case analysis of `synthesize` over the backend's flags. -/
theorem synthesize_eq {F : Type} [CommRing F] {R L : Nat}
    (c : MyCircuit F R L) (cfg : RangeCheckConfig F R L) (b : Backend)
    (st : LayouterState F) :
    c.synthesize cfg b st =
      if b.load_ok = true ∧ b.enable_ok = true ∧ b.assign_ok = true then
        Except.ok ⟨st.regions ++ [⟨"Assign value for simple range check",
          [(cfg.q_range_check.index, 0)], [(cfg.value.index, 0, c.value)]⟩],
          some ((List.range L).map fun i : Nat => (i : F))⟩
      else Except.error Error.Synthesis := by
  rcases b with ⟨eo, ao, lo⟩
  cases eo <;> cases ao <;> cases lo <;>
    simp [MyCircuit.synthesize, RangeTableConfig.load,
      RangeCheckConfig.assign_simple, LayouterState.assign_region,
      Selector.enable, Region.assign_advice]

/-- C2: `assign_simple` succeeds exactly when the backend can place the
region and write the cell, returning the wrapped assigned cell; success never
depends on the numeric value assigned, and a failure surfaces only as an
error result. -/
theorem C2_assign_simple_structural {F : Type} {R L : Nat}
    (cfg : RangeCheckConfig F R L) (b : Backend) (st : LayouterState F)
    (v w : Value F) :
    (b.enable_ok = true → b.assign_ok = true →
      cfg.assign_simple b st v = Except.ok
        (⟨⟨cfg.value.index, 0, v⟩⟩,
         ⟨st.regions ++ [⟨"Assign value for simple range check",
            [(cfg.q_range_check.index, 0)], [(cfg.value.index, 0, v)]⟩],
          st.table_rows⟩)) ∧
    ((b.enable_ok = true ∧ b.assign_ok = true) ∨
      cfg.assign_simple b st v = Except.error Error.Synthesis) ∧
    (cfg.assign_simple b st v).isOk = (cfg.assign_simple b st w).isOk := by
  rw [assign_simple_eq cfg b st v, assign_simple_eq cfg b st w]
  rcases b with ⟨eo, ao, lo⟩
  cases eo <;> cases ao <;>
    simp [Except.isOk, Except.toBool]

/-- C6: each `assign_simple` call commits one fresh region in which exactly
`q_range_check` is enabled, at offset 0, and each `assign_lookup` call
commits one fresh region in which exactly `q_lookup` is enabled, at offset
0; in the driver's configuration the two selectors are distinct. -/
theorem C6_one_selector_per_call {F : Type} [CommRing F] {R L : Nat}
    (cfg : RangeCheckConfig F R L) (b b' : Backend)
    (st st' : LayouterState F) (v w : Value F)
    (rs : RangeConstrained F R × LayouterState F)
    (rl : RangeConstrained F L × LayouterState F)
    (hs : cfg.assign_simple b st v = Except.ok rs)
    (hl : cfg.assign_lookup b' st' w = Except.ok rl) :
    rs.2.regions = st.regions ++
      [⟨"Assign value for simple range check", [(cfg.q_range_check.index, 0)],
        [(cfg.value.index, 0, v)]⟩] ∧
    rl.2.regions = st'.regions ++
      [⟨"Assign value for lookup range check", [(cfg.q_lookup.index, 0)],
        [(cfg.value.index, 0, w)]⟩] ∧
    (0 < R → qrc_index (circuit_config F R L) ≠ qlookup_index (circuit_config F R L)) := by
  refine ⟨?_, ?_, ?_⟩
  · rw [assign_simple_eq cfg b st v] at hs
    by_cases hb : b.enable_ok = true ∧ b.assign_ok = true
    · rw [if_pos hb] at hs
      injection hs with h2
      subst h2
      rfl
    · rw [if_neg hb] at hs
      exact Except.noConfusion hs
  · rw [assign_lookup_eq cfg b' st' w] at hl
    by_cases hb : b'.enable_ok = true ∧ b'.assign_ok = true
    · rw [if_pos hb] at hl
      injection hl with h2
      subst h2
      rfl
    · rw [if_neg hb] at hl
      exact Except.noConfusion hl
  · intro hR
    rw [circuit_config_eq R L hR]
    simp [qrc_index, qlookup_index]

/-- C6, evaluated: both assignment calls over ℚ on a fully successful
backend. -/
theorem C6_one_selector_per_call_witness :
    ([⟨"Assign value for simple range check", [(0, 0)],
        [(0, 0, Value.known (7 : ℚ))]⟩] : List (Region ℚ)) =
      [⟨"Assign value for simple range check", [(0, 0)], [(0, 0, Value.known 7)]⟩] ∧
    ([⟨"Assign value for lookup range check", [(1, 0)],
        [(0, 0, Value.known (3 : ℚ))]⟩] : List (Region ℚ)) =
      [⟨"Assign value for lookup range check", [(1, 0)], [(0, 0, Value.known 3)]⟩] ∧
    (0 < 16 → qrc_index (circuit_config ℚ 16 8) ≠ qlookup_index (circuit_config ℚ 16 8)) :=
  C6_one_selector_per_call (sample_config ℚ 16 8) sample_backend sample_backend
    (LayouterState.init ℚ) (LayouterState.init ℚ) (Value.known 7) (Value.known 3)
    (⟨⟨0, 0, Value.known 7⟩⟩,
     ⟨[⟨"Assign value for simple range check", [(0, 0)], [(0, 0, Value.known 7)]⟩], none⟩)
    (⟨⟨0, 0, Value.known 3⟩⟩,
     ⟨[⟨"Assign value for lookup range check", [(1, 0)], [(0, 0, Value.known 3)]⟩], none⟩)
    rfl rfl

/-- C4: `synthesize` ignores the `lookup_value` witness slot entirely, and on
success it has loaded the table with 0..LOOKUP_RANGE-1 and committed exactly
one region: the `assign_simple` region carrying the first witness slot with
`q_range_check` enabled — `assign_lookup` is never invoked. -/
theorem C4_synthesize_order {F : Type} [CommRing F] {R L : Nat}
    (c : MyCircuit F R L) (w : Value F) (cfg : RangeCheckConfig F R L)
    (b : Backend) (st st' : LayouterState F)
    (h : c.synthesize cfg b st = Except.ok st') :
    MyCircuit.synthesize ⟨c.value, w⟩ cfg b st = c.synthesize cfg b st ∧
    st'.regions = st.regions ++
      [⟨"Assign value for simple range check", [(cfg.q_range_check.index, 0)],
        [(cfg.value.index, 0, c.value)]⟩] ∧
    st'.table_rows = some ((List.range L).map fun i : Nat => (i : F)) := by
  refine ⟨rfl, ?_⟩
  rw [synthesize_eq c cfg b st] at h
  by_cases hb : b.load_ok = true ∧ b.enable_ok = true ∧ b.assign_ok = true
  · rw [if_pos hb] at h
    injection h with h2
    subst h2
    exact ⟨rfl, rfl⟩
  · rw [if_neg hb] at h
    exact Except.noConfusion h

/-- C4, evaluated: RANGE = 16, LOOKUP_RANGE = 8 over ℚ, witness slots 7 and
1, on a fully successful backend. -/
theorem C4_synthesize_order_witness :
    MyCircuit.synthesize (⟨Value.known 7, Value.unknown⟩ : MyCircuit ℚ 16 8)
        (sample_config ℚ 16 8) sample_backend (LayouterState.init ℚ) =
      MyCircuit.synthesize (⟨Value.known 7, Value.known 1⟩ : MyCircuit ℚ 16 8)
        (sample_config ℚ 16 8) sample_backend (LayouterState.init ℚ) ∧
    ([⟨"Assign value for simple range check", [(0, 0)],
        [(0, 0, Value.known (7 : ℚ))]⟩] : List (Region ℚ)) =
      [⟨"Assign value for simple range check", [(0, 0)], [(0, 0, Value.known 7)]⟩] ∧
    some ((List.range 8).map fun i : Nat => (i : ℚ)) =
      some ((List.range 8).map fun i : Nat => (i : ℚ)) :=
  C4_synthesize_order ⟨Value.known 7, Value.known 1⟩ Value.unknown
    (sample_config ℚ 16 8) sample_backend (LayouterState.init ℚ)
    ⟨[⟨"Assign value for simple range check", [(0, 0)], [(0, 0, Value.known 7)]⟩],
     some ((List.range 8).map fun i : Nat => (i : ℚ))⟩
    rfl

/-- C7: `without_witnesses` returns a circuit whose two witness slots are
both unknown, whatever the witnesses of the circuit it is called on. -/
theorem C7_without_witnesses_unknown {F : Type} {R L : Nat}
    (c : MyCircuit F R L) :
    c.without_witnesses.value = Value.unknown ∧
    c.without_witnesses.lookup_value = Value.unknown :=
  ⟨rfl, rfl⟩

end Halo2
